import Mathlib

/-!
Verification model of the `logzai-otlp` observability facade.

The definitions below are a shallow embedding of `src/logzai_otlp/main.py`:
the `LogzAIBase` exporter factory, the `LogzAI` facade (`init`, `log` and its
leveled wrappers, `start_span`, the scoped `span` helper, `set_span_attribute`,
`shutdown`), and the plugin registry described by the specification (the
registry methods `plugin` / `unregister_plugin` are called by the example
programs but their implementation is not among the provided source files, so
they are modelled from the specification, as marked on each definition).

External collaborators (the OTLP exporter classes, the OpenTelemetry SDK
providers and processors, the standard `logging` module) are represented by
the data the facade hands to them: exporter configurations, log records,
span records, and call counters.
-/

namespace LogzaiOtlp

/-! ### Exporter endpoint construction (`LogzAIBase._make_log_exporter`, `_make_trace_exporter`) -/

/-- Embeds Python `endpoint.rstrip('/')`: removes every trailing slash character. -/
def rstripSlashes (s : String) : String :=
  String.mk ((s.data.reverse.dropWhile (fun c => c == '/')).reverse)

/-- Which OTLP exporter class the factory picks (`grpc` or `http` module). -/
inductive ExporterKind
  | grpc
  | http
deriving Repr, DecidableEq

/-- The data a constructed exporter is bound to: the selected transport,
the derived URL, and the outbound headers. -/
structure ExporterCfg where
  kind : ExporterKind
  url : String
  headers : List (String × String)
deriving Repr, DecidableEq

/-- Embeds Python `str.lower()` (ASCII case folding, which is all the
`"grpc"` comparison can distinguish). -/
def pyLower (s : String) : String := String.mk (s.data.map Char.toLower)

/-- Embeds `LogzAIBase._make_log_exporter`: appends `/logs` to the endpoint after
removing trailing slashes, then selects the gRPC exporter exactly when
`protocol.lower() == "grpc"` and the HTTP exporter otherwise. -/
def LogzAIBase.makeLogExporter (endpoint : String) (headers : List (String × String))
    (protocol : String) : ExporterCfg :=
  let log_url := rstripSlashes endpoint ++ "/logs"
  if pyLower protocol = "grpc" then
    { kind := ExporterKind.grpc, url := log_url, headers := headers }
  else
    { kind := ExporterKind.http, url := log_url, headers := headers }

/-- Embeds `LogzAIBase._make_trace_exporter`: appends `/traces` to the endpoint after
removing trailing slashes, then selects the gRPC exporter exactly when
`protocol.lower() == "grpc"` and the HTTP exporter otherwise. -/
def LogzAIBase.makeTraceExporter (endpoint : String) (headers : List (String × String))
    (protocol : String) : ExporterCfg :=
  let trace_url := rstripSlashes endpoint ++ "/traces"
  if pyLower protocol = "grpc" then
    { kind := ExporterKind.grpc, url := trace_url, headers := headers }
  else
    { kind := ExporterKind.http, url := trace_url, headers := headers }

/-! ### Structured fields (the `**kwargs` dictionaries handed to `logger.log(..., extra=kwargs)`) -/

/-- Scalar values carried in the structured-field dictionaries. -/
inductive FieldVal
  | str (s : String)
  | bool (b : Bool)
  | int (n : Int)
deriving Repr, DecidableEq

/-- An insertion-ordered string-keyed dictionary, as a Python `dict`. -/
abbrev Fields := List (String × FieldVal)

/-- Embeds Python `d[k] = v` on a `dict`: replaces the value at an existing key
in place, otherwise appends the new key at the end. -/
def setField : Fields → String → FieldVal → Fields
  | [], k, v => [(k, v)]
  | (k', v') :: rest, k, v =>
      if k' = k then (k, v) :: rest else (k', v') :: setField rest k v

/-- Association lookup on a string-keyed list (Python `d.get(k)`). -/
def lookupKey {β : Type} : List (String × β) → String → Option β
  | [], _ => none
  | (k', v') :: rest, k => if k' = k then some v' else lookupKey rest k

/-! ### The currently propagating exception (`sys.exc_info()`), as the facade reads it -/

/-- What the facade extracts from a propagating exception: `type(e).__name__`,
`str(e)`, and the fully formatted traceback. -/
structure ExcDesc where
  typeName : String
  message : String
  stacktrace : String
deriving Repr, DecidableEq

/-- Embeds lines 147-154 of `LogzAI.log`: when `exc_info` is requested or
`sys.exc_info()[0] is not None`, and a live exception actually exists, the
reserved exception fields are written into the `kwargs` dictionary.
`cur` is the exception currently propagating on the calling thread
(`none` when `sys.exc_info()` reports no exception). -/
def addExcFields (exc_info : Bool) (cur : Option ExcDesc) (kwargs : Fields) : Fields :=
  if exc_info || cur.isSome then
    match cur with
    | some e =>
        setField
          (setField
            (setField
              (setField kwargs "is_exception" (FieldVal.bool true))
              "exception.type" (FieldVal.str e.typeName))
            "exception.message" (FieldVal.str e.message))
          "exception.stacktrace" (FieldVal.str e.stacktrace)
    | none => kwargs
  else kwargs

/-! ### Python `logging` level constants -/

namespace logging

def DEBUG : Nat := 10
def INFO : Nat := 20
def WARNING : Nat := 30
def ERROR : Nat := 40
def CRITICAL : Nat := 50

end logging

/-! ### The facade's mutable state (`LogzAIBase.__init__` fields) -/

/-- The `logging.Logger` configuration that `init` builds: the minimum level and
the handlers attached (the OTLP `LoggingHandler`, and the console `StreamHandler`
when mirroring is on). -/
structure LoggerSt where
  minLevel : Nat
  otlpHandler : Bool
  consoleHandler : Bool
deriving Repr, DecidableEq

/-- The fields set by `LogzAIBase.__init__`. A provider is represented by the
number of times its `shutdown()` has been called; `none` means the attribute
is still `None`. -/
structure LogzAIState where
  log_provider : Option Nat
  tracer_provider : Option Nat
  logger : Option LoggerSt
  tracer : Option Unit
  mirror_to_console : Bool
deriving Repr, DecidableEq

/-- Embeds `LogzAIBase.__init__`: every handle starts as `None` and console
mirroring starts off. -/
def LogzAI.initialState : LogzAIState :=
  { log_provider := none, tracer_provider := none, logger := none,
    tracer := none, mirror_to_console := false }

/-! ### `LogzAI.init` -/

/-- The arguments of `LogzAI.init`, one field per parameter. -/
structure InitConfig where
  ingest_token : String
  ingest_endpoint : String
  min_level : Nat
  service_name : String
  service_namespace : String
  environment : String
  protocol : String
  mirror_to_console : Bool
  origin : Option String
deriving Repr, DecidableEq

/-- The defaults of the Python signature of `init`: only `ingest_token` is
required; `ingest_endpoint`, `min_level` and the keyword-only parameters take
the listed default values. -/
def defaultInitConfig (ingest_token : String) : InitConfig :=
  { ingest_token := ingest_token
    ingest_endpoint := "http://ingest.logzai.com"
    min_level := logging.DEBUG
    service_name := "app"
    service_namespace := "default"
    environment := "prod"
    protocol := "http"
    mirror_to_console := false
    origin := none }

/-- Everything `init` constructs: the updated facade state plus the data wired
into the external pipeline objects (resource attributes, outbound headers, and
both exporter configurations). -/
structure InitResult where
  state : LogzAIState
  resource : List (String × String)
  headers : List (String × String)
  logExporter : ExporterCfg
  traceExporter : ExporterCfg
deriving Repr, DecidableEq

/-- Embeds `LogzAI.init`. The body performs no validation of any argument: it
builds the resource attributes and headers (adding `origin` only when the
Python value is truthy, i.e. neither `None` nor the empty string), constructs
both exporters and providers, and installs the logger handles. The `Except`
result records that the source has no failure path. -/
def LogzAI.init (_s : LogzAIState) (c : InitConfig) : Except String InitResult :=
  let resource_attrs := [("service.name", c.service_name),
                         ("service.namespace", c.service_namespace),
                         ("deployment.environment", c.environment)]
  let resource_attrs := match c.origin with
    | some o => if o = "" then resource_attrs else resource_attrs ++ [("origin", o)]
    | none => resource_attrs
  let headers := [("x-ingest-token", c.ingest_token)]
  let headers := match c.origin with
    | some o => if o = "" then headers else headers ++ [("x-origin", o)]
    | none => headers
  let trace_exporter := LogzAIBase.makeTraceExporter c.ingest_endpoint headers c.protocol
  let log_exporter := LogzAIBase.makeLogExporter c.ingest_endpoint headers c.protocol
  Except.ok
    { state :=
        { log_provider := some 0
          tracer_provider := some 0
          logger := some { minLevel := c.min_level, otlpHandler := true,
                           consoleHandler := c.mirror_to_console }
          tracer := some ()
          mirror_to_console := c.mirror_to_console }
      resource := resource_attrs
      headers := headers
      logExporter := log_exporter
      traceExporter := trace_exporter }

/-- Projects the facade state out of an `init` result (the uninitialized state
when `init` failed). -/
def initStateOf : Except String InitResult → LogzAIState
  | Except.ok r => r.state
  | Except.error _ => LogzAI.initialState

/-- Projects the headers out of an `init` result. -/
def initHeadersOf : Except String InitResult → Option (List (String × String))
  | Except.ok r => some r.headers
  | Except.error _ => none

/-- Tests whether an `Except` computation succeeded (did not raise). -/
def isOkB {α : Type} : Except String α → Bool
  | Except.ok _ => true
  | Except.error _ => false

/-! ### `LogzAI.log` and the leveled convenience wrappers -/

/-- The message raised by the facade's `RuntimeError` when used before `init`. -/
def notInitializedMsg : String := "LogzAI not initialized. Call logzai.init(...) first."

/-- What one `log` call hands to `self.logger.log(level, message, extra=kwargs,
stacklevel=stacklevel)`. -/
structure LogRecord where
  level : Nat
  message : String
  stacklevel : Nat
  fields : Fields
deriving Repr, DecidableEq

/-- Embeds `LogzAI.log`: raises `RuntimeError` when `self.logger` is unset,
otherwise enriches `kwargs` with the propagating-exception fields and forwards
everything to the underlying logger. `cur` is the exception currently
propagating on the calling thread. -/
def LogzAI.log (s : LogzAIState) (cur : Option ExcDesc) (level : Nat) (message : String)
    (stacklevel : Nat) (exc_info : Bool) (kwargs : Fields) : Except String LogRecord :=
  match s.logger with
  | none => Except.error notInitializedMsg
  | some _ =>
      Except.ok { level := level, message := message, stacklevel := stacklevel,
                  fields := addExcFields exc_info cur kwargs }

/-- Records the Python defaults of `log` (`stacklevel=2`, `exc_info=False`):
a call that omits both keyword arguments. -/
def LogzAI.logDefaults (s : LogzAIState) (cur : Option ExcDesc) (level : Nat)
    (message : String) (kwargs : Fields) : Except String LogRecord :=
  LogzAI.log s cur level message 2 false kwargs

/-- Embeds `LogzAI.debug`. -/
def LogzAI.debug (s : LogzAIState) (cur : Option ExcDesc) (message : String)
    (exc_info : Bool) (kwargs : Fields) : Except String LogRecord :=
  LogzAI.log s cur logging.DEBUG message 3 exc_info kwargs

/-- Records the Python default `exc_info=False` of `debug`. -/
def LogzAI.debugDefaults (s : LogzAIState) (cur : Option ExcDesc) (message : String)
    (kwargs : Fields) : Except String LogRecord :=
  LogzAI.debug s cur message false kwargs

/-- Embeds `LogzAI.info`. -/
def LogzAI.info (s : LogzAIState) (cur : Option ExcDesc) (message : String)
    (exc_info : Bool) (kwargs : Fields) : Except String LogRecord :=
  LogzAI.log s cur logging.INFO message 3 exc_info kwargs

/-- Records the Python default `exc_info=False` of `info`. -/
def LogzAI.infoDefaults (s : LogzAIState) (cur : Option ExcDesc) (message : String)
    (kwargs : Fields) : Except String LogRecord :=
  LogzAI.info s cur message false kwargs

/-- Embeds `LogzAI.warning`. -/
def LogzAI.warning (s : LogzAIState) (cur : Option ExcDesc) (message : String)
    (exc_info : Bool) (kwargs : Fields) : Except String LogRecord :=
  LogzAI.log s cur logging.WARNING message 3 exc_info kwargs

/-- Records the Python default `exc_info=False` of `warning`. -/
def LogzAI.warningDefaults (s : LogzAIState) (cur : Option ExcDesc) (message : String)
    (kwargs : Fields) : Except String LogRecord :=
  LogzAI.warning s cur message false kwargs

/-- Embeds `LogzAI.warn`. -/
def LogzAI.warn (s : LogzAIState) (cur : Option ExcDesc) (message : String)
    (exc_info : Bool) (kwargs : Fields) : Except String LogRecord :=
  LogzAI.log s cur logging.WARNING message 3 exc_info kwargs

/-- Records the Python default `exc_info=False` of `warn`. -/
def LogzAI.warnDefaults (s : LogzAIState) (cur : Option ExcDesc) (message : String)
    (kwargs : Fields) : Except String LogRecord :=
  LogzAI.warn s cur message false kwargs

/-- Embeds `LogzAI.error`. -/
def LogzAI.error (s : LogzAIState) (cur : Option ExcDesc) (message : String)
    (exc_info : Bool) (kwargs : Fields) : Except String LogRecord :=
  LogzAI.log s cur logging.ERROR message 3 exc_info kwargs

/-- Records the Python default `exc_info=True` of `error`. -/
def LogzAI.errorDefaults (s : LogzAIState) (cur : Option ExcDesc) (message : String)
    (kwargs : Fields) : Except String LogRecord :=
  LogzAI.error s cur message true kwargs

/-- Embeds `LogzAI.critical`. -/
def LogzAI.critical (s : LogzAIState) (cur : Option ExcDesc) (message : String)
    (exc_info : Bool) (kwargs : Fields) : Except String LogRecord :=
  LogzAI.log s cur logging.CRITICAL message 3 exc_info kwargs

/-- Records the Python default `exc_info=True` of `critical`. -/
def LogzAI.criticalDefaults (s : LogzAIState) (cur : Option ExcDesc) (message : String)
    (kwargs : Fields) : Except String LogRecord :=
  LogzAI.critical s cur message true kwargs

/-- Embeds `LogzAI.exception`: always requests exception capture. -/
def LogzAI.exception (s : LogzAIState) (cur : Option ExcDesc) (message : String)
    (kwargs : Fields) : Except String LogRecord :=
  LogzAI.log s cur logging.ERROR message 3 true kwargs

/-! ### Spans (`LogzAI.start_span`, `LogzAI.span`, `LogzAI.set_span_attribute`) -/

/-- The terminal status of a span. -/
inductive SpanStatus
  | unset
  | ok
  | error (description : String)
deriving Repr, DecidableEq

/-- A span as the facade manipulates it: its name, attribute dictionary, how
many times `end()` has run on it, and its status. -/
structure SpanRec where
  name : String
  attrs : Fields
  endCount : Nat
  status : SpanStatus
deriving Repr, DecidableEq

/-- Embeds `LogzAI.start_span`: raises `RuntimeError` when `self.tracer` is
unset, otherwise creates a fresh, not-yet-ended span. -/
def LogzAI.start_span (s : LogzAIState) (name : String) (attrs : Fields) :
    Except String SpanRec :=
  match s.tracer with
  | none => Except.error notInitializedMsg
  | some _ => Except.ok { name := name, attrs := attrs, endCount := 0, status := SpanStatus.unset }

/-- How a block given to the scoped `span` helper finishes: a normal value, or
a propagating exception (its type name and its `str(e)` stringification). -/
inductive BlockOutcome (α : Type)
  | normal (value : α)
  | raised (excType excMessage : String)
deriving Repr, DecidableEq

/-- Embeds `trace.use_span(span, end_on_exit=True)` as `LogzAI.span` uses it:
the span is ended exactly once on every exit path, and on an exception the
library's default `set_status_on_exception` marks the span before re-raising. -/
def useSpanEndOnExit {α : Type} (sp : SpanRec) (outcome : BlockOutcome α) : SpanRec :=
  match outcome with
  | BlockOutcome.normal _ => { sp with endCount := sp.endCount + 1 }
  | BlockOutcome.raised ty msg =>
      { sp with status := SpanStatus.error (ty ++ ": " ++ msg), endCount := sp.endCount + 1 }

/-- Embeds the `LogzAI.span` context manager, with the enclosed block
abstracted by its outcome: start a span, run the block under
`use_span(..., end_on_exit=True)`, and if the block raised `e`, set the span
status to error with `str(e)` and re-raise. The result pairs the span's final
state with the outcome delivered to the caller. -/
def LogzAI.span {α : Type} (s : LogzAIState) (name : String) (attrs : Fields)
    (outcome : BlockOutcome α) : Except String (SpanRec × BlockOutcome α) :=
  match LogzAI.start_span s name attrs with
  | Except.error e => Except.error e
  | Except.ok sp =>
      let sp := useSpanEndOnExit sp outcome
      match outcome with
      | BlockOutcome.normal a => Except.ok (sp, BlockOutcome.normal a)
      | BlockOutcome.raised ty msg =>
          Except.ok ({ sp with status := SpanStatus.error msg }, BlockOutcome.raised ty msg)

/-- Embeds `LogzAI.set_span_attribute`: sets one attribute on the given span.
The body performs no initialization check. -/
def LogzAI.set_span_attribute (_s : LogzAIState) (sp : SpanRec) (key : String)
    (value : FieldVal) : Except String SpanRec :=
  Except.ok { sp with attrs := setField sp.attrs key value }

/-! ### `LogzAI.shutdown` (the provider teardown, from the source) -/

/-- Embeds one `try: provider.shutdown() except Exception: pass` block: the
provider's shutdown is called (the call counter advances) and a failure inside
it is swallowed. `raises` says whether this provider's shutdown fails. -/
def tryProviderShutdown (raises : Bool) (calls : Nat) : Nat :=
  let attempt : Except String Nat :=
    if raises then Except.error "provider shutdown failed" else Except.ok (calls + 1)
  match attempt with
  | Except.ok n => n
  | Except.error _ => calls + 1

/-- Embeds the body of `LogzAI.shutdown`: each present provider's shutdown is
attempted inside its own guard, so the function is total. `logRaises` and
`tracerRaises` say whether the respective provider's shutdown fails. -/
def LogzAI.shutdownRun (s : LogzAIState) (logRaises tracerRaises : Bool) : LogzAIState :=
  let s := match s.log_provider with
    | some n => { s with log_provider := some (tryProviderShutdown logRaises n) }
    | none => s
  let s := match s.tracer_provider with
    | some n => { s with tracer_provider := some (tryProviderShutdown tracerRaises n) }
    | none => s
  s

/-- Embeds `LogzAI.shutdown` as seen by the caller: the guarded body never
lets an exception escape. -/
def LogzAI.shutdown (s : LogzAIState) (logRaises tracerRaises : Bool) :
    Except String LogzAIState :=
  Except.ok (LogzAI.shutdownRun s logRaises tracerRaises)

/-! ### The plugin registry

The registry methods `plugin(name, installer, config)` and
`unregister_plugin(name)` are invoked by the example programs on the shared
facade instance, but their implementation is not among the provided source
files, so they are modelled from the specification. An installer is abstracted
by a token; `hooksOf token` is the multiset of hooks that installer adds to the
host application and that its returned cleanup callback reverses. The event
log records every installer and cleanup invocation in order. -/

/-- One observable action of the registry: an installer ran, or a stored
cleanup callback ran. -/
inductive PluginEvent
  | install (token : Nat)
  | cleanup (token : Nat)
deriving Repr, DecidableEq

/-- The registry's state: the name-keyed table of currently registered plugins
(each holding its cleanup token), the multiset of hooks currently installed in
the host, and the log of installer/cleanup invocations. -/
structure PluginRegistryState where
  registry : List (String × Nat)
  installed : Multiset Nat
  events : List PluginEvent
deriving DecidableEq

/-- The registry before any registration. -/
def emptyRegistry : PluginRegistryState :=
  { registry := [], installed := 0, events := [] }

/-- Looks a plugin name up in the registry table. -/
def findPlugin (name : String) : List (String × Nat) → Option Nat
  | [] => none
  | (n, t) :: rest => if n = name then some t else findPlugin name rest

/-- Removes a plugin name's entry from the registry table. -/
def removePlugin (name : String) (l : List (String × Nat)) : List (String × Nat) :=
  l.filter (fun p => decide (p.1 ≠ name))

/-- Counts how many times the cleanup callback of `token` has been invoked. -/
def cleanupCount (token : Nat) (events : List PluginEvent) : Nat :=
  events.count (PluginEvent.cleanup token)

/-- Modelled from the spec: `plugin(name, installer, config)` registers a named
plugin; re-registration under an existing name first runs that name's stored
cleanup (reversing its hooks) before the new installer runs, and the new
entry's cleanup is stored under the name. -/
def LogzAI.plugin (hooksOf : Nat → Multiset Nat) (name : String) (token : Nat)
    (s : PluginRegistryState) : PluginRegistryState :=
  match findPlugin name s.registry with
  | some old =>
      { registry := removePlugin name s.registry ++ [(name, token)]
        installed := s.installed - hooksOf old + hooksOf token
        events := s.events ++ [PluginEvent.cleanup old, PluginEvent.install token] }
  | none =>
      { registry := s.registry ++ [(name, token)]
        installed := s.installed + hooksOf token
        events := s.events ++ [PluginEvent.install token] }

/-- Modelled from the spec: `unregister_plugin(name)` invokes the stored
cleanup and removes the entry when the name is present, and is a no-op (not an
error) when it is absent; a failure inside the cleanup is swallowed, so the
operation is total. -/
def LogzAI.unregister_plugin (hooksOf : Nat → Multiset Nat) (name : String)
    (s : PluginRegistryState) : PluginRegistryState :=
  match findPlugin name s.registry with
  | some old =>
      { registry := removePlugin name s.registry
        installed := s.installed - hooksOf old
        events := s.events ++ [PluginEvent.cleanup old] }
  | none => s

/-- One call against the registry surface. -/
inductive PluginOp
  | register (name : String) (token : Nat)
  | unregister (name : String)
deriving Repr, DecidableEq

/-- Applies one registry call. -/
def applyPluginOp (hooksOf : Nat → Multiset Nat) (op : PluginOp)
    (s : PluginRegistryState) : PluginRegistryState :=
  match op with
  | PluginOp.register name token => LogzAI.plugin hooksOf name token s
  | PluginOp.unregister name => LogzAI.unregister_plugin hooksOf name s

/-- Applies a sequence of registry calls, first to last. -/
def applyPluginOps (hooksOf : Nat → Multiset Nat) :
    List PluginOp → PluginRegistryState → PluginRegistryState
  | [], s => s
  | op :: rest, s => applyPluginOps hooksOf rest (applyPluginOp hooksOf op s)

/-- The hooks belonging to the plugins currently held in the registry table. -/
def netHooks (hooksOf : Nat → Multiset Nat) (l : List (String × Nat)) : Multiset Nat :=
  (l.map (fun p => hooksOf p.2)).sum

/-- Modelled from the spec: one guarded cleanup invocation during shutdown.
The cleanup callback runs (the event is logged); a `PluginCleanupError` it
raises is swallowed so teardown always completes. `cleanupRaises` says which
cleanups fail. -/
def tryCleanup (cleanupRaises : Nat → Bool) (token : Nat)
    (events : List PluginEvent) : List PluginEvent :=
  let attempt : Except String Unit :=
    if cleanupRaises token then Except.error "cleanup failed" else Except.ok ()
  match attempt with
  | Except.ok _ => events ++ [PluginEvent.cleanup token]
  | Except.error _ => events ++ [PluginEvent.cleanup token]

/-- Modelled from the spec: shutdown first iterates every still-registered
plugin in registration order, invoking each stored cleanup inside its own
guard, and empties the registry. -/
def drainPlugins (hooksOf : Nat → Multiset Nat) (cleanupRaises : Nat → Bool) :
    List (String × Nat) → Multiset Nat → List PluginEvent → PluginRegistryState
  | [], inst, evs => { registry := [], installed := inst, events := evs }
  | (_, t) :: rest, inst, evs =>
      drainPlugins hooksOf cleanupRaises rest (inst - hooksOf t) (tryCleanup cleanupRaises t evs)

/-- The full facade shutdown: drain the plugin registry (modelled from the
spec, see `drainPlugins`), then tear down both providers (`LogzAI.shutdown`,
from the source). Every step is guarded, so the result is always a success. -/
def LogzAI.fullShutdownRun (hooksOf : Nat → Multiset Nat) (cleanupRaises : Nat → Bool)
    (logRaises tracerRaises : Bool) (ps : PluginRegistryState) (s : LogzAIState) :
    PluginRegistryState × LogzAIState :=
  (drainPlugins hooksOf cleanupRaises ps.registry ps.installed ps.events,
   LogzAI.shutdownRun s logRaises tracerRaises)

/-- The full facade shutdown as seen by the caller: it never raises. -/
def LogzAI.fullShutdown (hooksOf : Nat → Multiset Nat) (cleanupRaises : Nat → Bool)
    (logRaises tracerRaises : Bool) (ps : PluginRegistryState) (s : LogzAIState) :
    Except String (PluginRegistryState × LogzAIState) :=
  Except.ok (LogzAI.fullShutdownRun hooksOf cleanupRaises logRaises tracerRaises ps s)

/-! ### Helper lemmas -/

theorem lookupKey_setField_self (kwargs : Fields) (k : String) (v : FieldVal) :
    lookupKey (setField kwargs k v) k = some v := by
  induction kwargs with
  | nil => simp [setField, lookupKey]
  | cons p rest ih =>
      obtain ⟨k', v'⟩ := p
      by_cases h : k' = k
      · simp [setField, h, lookupKey]
      · simp [setField, h, lookupKey, ih]

theorem lookupKey_setField_ne (kwargs : Fields) (k k2 : String) (v : FieldVal)
    (h : k2 ≠ k) : lookupKey (setField kwargs k v) k2 = lookupKey kwargs k2 := by
  induction kwargs with
  | nil => simp [setField, lookupKey, Ne.symm h]
  | cons p rest ih =>
      obtain ⟨k', v'⟩ := p
      by_cases hk : k' = k
      · simp [setField, hk, lookupKey, Ne.symm h]
      · simp [setField, hk, lookupKey, ih]

theorem head_dropWhile_slashes (l : List Char) :
    (((l.dropWhile (fun c => c == '/')).head?).all (fun c => c != '/')) = true := by
  induction l with
  | nil => rfl
  | cons x xs ih =>
      by_cases h : x = '/'
      · have hx : (x == '/') = true := by simp [h]
        simpa [List.dropWhile, hx] using ih
      · have hx : (x == '/') = false := by simp [h]
        simp [List.dropWhile, hx, bne]

theorem rstripSlashes_no_trailing (s : String) :
    (((rstripSlashes s).data.getLast?).all (fun c => c != '/')) = true := by
  unfold rstripSlashes
  rw [show (String.mk ((s.data.reverse.dropWhile (fun c => c == '/')).reverse)).data
        = (s.data.reverse.dropWhile (fun c => c == '/')).reverse from rfl]
  rw [List.getLast?_reverse]
  exact head_dropWhile_slashes _

theorem findPlugin_eq_none_iff (name : String) (l : List (String × Nat)) :
    findPlugin name l = none ↔ name ∉ l.map Prod.fst := by
  induction l with
  | nil => simp [findPlugin]
  | cons p rest ih =>
      obtain ⟨n, t⟩ := p
      by_cases h : n = name
      · simp [findPlugin, h]
      · simp [findPlugin, h, ih, Ne.symm h]

theorem findPlugin_append_single (name : String) (t : Nat) (l : List (String × Nat))
    (h : findPlugin name l = none) : findPlugin name (l ++ [(name, t)]) = some t := by
  induction l with
  | nil => simp [findPlugin]
  | cons p rest ih =>
      obtain ⟨n, v⟩ := p
      by_cases hn : n = name
      · simp [findPlugin, hn] at h
      · simp [findPlugin, hn] at h ⊢
        exact ih h

theorem notMem_keys_removePlugin (name : String) (l : List (String × Nat)) :
    name ∉ (removePlugin name l).map Prod.fst := by
  intro hmem
  simp only [removePlugin, List.mem_map] at hmem
  obtain ⟨p, hp, hfst⟩ := hmem
  have := List.of_mem_filter hp
  simp [hfst] at this

theorem findPlugin_removePlugin (name : String) (l : List (String × Nat)) :
    findPlugin name (removePlugin name l) = none :=
  (findPlugin_eq_none_iff name _).mpr (notMem_keys_removePlugin name l)

theorem removePlugin_cons (name n : String) (t : Nat) (l : List (String × Nat)) :
    removePlugin name ((n, t) :: l)
      = if n = name then removePlugin name l else (n, t) :: removePlugin name l := by
  by_cases hn : n = name
  · simp [removePlugin, List.filter_cons, hn]
  · simp [removePlugin, List.filter_cons, hn]

theorem removePlugin_eq_self (name : String) (l : List (String × Nat))
    (h : name ∉ l.map Prod.fst) : removePlugin name l = l := by
  induction l with
  | nil => rfl
  | cons p rest ih =>
      obtain ⟨n, t⟩ := p
      simp only [List.map_cons, List.mem_cons] at h
      push_neg at h
      rw [removePlugin_cons, if_neg (Ne.symm h.1), ih h.2]

theorem keys_removePlugin_nodup (name : String) (l : List (String × Nat))
    (h : (l.map Prod.fst).Nodup) : ((removePlugin name l).map Prod.fst).Nodup :=
  ((List.filter_sublist l).map Prod.fst).nodup h

theorem netHooks_cons (hooksOf : Nat → Multiset Nat) (p : String × Nat)
    (l : List (String × Nat)) :
    netHooks hooksOf (p :: l) = hooksOf p.2 + netHooks hooksOf l := by
  simp [netHooks]

theorem netHooks_append_single (hooksOf : Nat → Multiset Nat) (l : List (String × Nat))
    (n : String) (t : Nat) :
    netHooks hooksOf (l ++ [(n, t)]) = netHooks hooksOf l + hooksOf t := by
  simp [netHooks]

theorem netHooks_decomp (hooksOf : Nat → Multiset Nat) (name : String) (old : Nat) :
    ∀ l : List (String × Nat), (l.map Prod.fst).Nodup → findPlugin name l = some old →
      netHooks hooksOf l = hooksOf old + netHooks hooksOf (removePlugin name l) := by
  intro l
  induction l with
  | nil => intro _ hf; simp [findPlugin] at hf
  | cons p rest ih =>
      obtain ⟨n, t⟩ := p
      intro hnd hf
      simp only [List.map_cons, List.nodup_cons] at hnd
      by_cases hn : n = name
      · have ht : t = old := by simpa [findPlugin, hn] using hf
        have hkeys : name ∉ rest.map Prod.fst := hn ▸ hnd.1
        have hrem : removePlugin name ((n, t) :: rest) = rest := by
          rw [removePlugin_cons, if_pos hn, removePlugin_eq_self name rest hkeys]
        rw [hrem, netHooks_cons, ht]
      · have hf' : findPlugin name rest = some old := by simpa [findPlugin, hn] using hf
        have hrem : removePlugin name ((n, t) :: rest) = (n, t) :: removePlugin name rest := by
          rw [removePlugin_cons, if_neg hn]
        rw [hrem, netHooks_cons, netHooks_cons, ih hnd.2 hf', add_left_comm]

theorem tryProviderShutdown_eq (raises : Bool) (calls : Nat) :
    tryProviderShutdown raises calls = calls + 1 := by
  cases raises <;> rfl

theorem tryCleanup_eq (cleanupRaises : Nat → Bool) (token : Nat) (events : List PluginEvent) :
    tryCleanup cleanupRaises token events = events ++ [PluginEvent.cleanup token] := by
  unfold tryCleanup
  cases cleanupRaises token <;> simp

theorem drainPlugins_spec (hooksOf : Nat → Multiset Nat) (cleanupRaises : Nat → Bool) :
    ∀ (l : List (String × Nat)) (inst : Multiset Nat) (evs : List PluginEvent),
      drainPlugins hooksOf cleanupRaises l inst evs =
        { registry := []
          installed := inst - netHooks hooksOf l
          events := evs ++ l.map (fun p => PluginEvent.cleanup p.2) } := by
  intro l
  induction l with
  | nil => intro inst evs; simp [drainPlugins, netHooks]
  | cons p rest ih =>
      obtain ⟨n, t⟩ := p
      intro inst evs
      rw [show drainPlugins hooksOf cleanupRaises ((n, t) :: rest) inst evs
            = drainPlugins hooksOf cleanupRaises rest (inst - hooksOf t)
                (tryCleanup cleanupRaises t evs) from rfl]
      rw [ih, tryCleanup_eq, netHooks_cons]
      simp [tsub_tsub, List.append_assoc]

theorem applyPluginOp_preserves (hooksOf : Nat → Multiset Nat) (op : PluginOp)
    (s : PluginRegistryState)
    (hnd : (s.registry.map Prod.fst).Nodup)
    (hinv : s.installed = netHooks hooksOf s.registry) :
    ((applyPluginOp hooksOf op s).registry.map Prod.fst).Nodup
    ∧ (applyPluginOp hooksOf op s).installed
        = netHooks hooksOf (applyPluginOp hooksOf op s).registry := by
  cases op with
  | register name token =>
      cases hfind : findPlugin name s.registry with
      | none =>
          have hkeys : name ∉ s.registry.map Prod.fst := (findPlugin_eq_none_iff _ _).mp hfind
          simp only [applyPluginOp, LogzAI.plugin, hfind]
          constructor
          · rw [List.map_append]
            refine List.Nodup.append hnd (List.nodup_singleton _) ?_
            intro a ha hb
            rw [show ([(name, token)].map Prod.fst) = [name] from rfl, List.mem_singleton] at hb
            exact hkeys (hb ▸ ha)
          · rw [netHooks_append_single, hinv]
      | some old =>
          have hdec := netHooks_decomp hooksOf name old s.registry hnd hfind
          simp only [applyPluginOp, LogzAI.plugin, hfind]
          constructor
          · rw [List.map_append]
            refine List.Nodup.append (keys_removePlugin_nodup name _ hnd)
              (List.nodup_singleton _) ?_
            intro a ha hb
            rw [show ([(name, token)].map Prod.fst) = [name] from rfl, List.mem_singleton] at hb
            exact notMem_keys_removePlugin name s.registry (hb ▸ ha)
          · rw [netHooks_append_single, hinv, hdec, add_tsub_cancel_left]
  | unregister name =>
      cases hfind : findPlugin name s.registry with
      | none =>
          simp only [applyPluginOp, LogzAI.unregister_plugin, hfind]
          exact ⟨hnd, hinv⟩
      | some old =>
          have hdec := netHooks_decomp hooksOf name old s.registry hnd hfind
          simp only [applyPluginOp, LogzAI.unregister_plugin, hfind]
          exact ⟨keys_removePlugin_nodup name _ hnd,
                 by rw [hinv, hdec, add_tsub_cancel_left]⟩

theorem applyPluginOps_inv (hooksOf : Nat → Multiset Nat) :
    ∀ (ops : List PluginOp) (s : PluginRegistryState),
      (s.registry.map Prod.fst).Nodup → s.installed = netHooks hooksOf s.registry →
      ((applyPluginOps hooksOf ops s).registry.map Prod.fst).Nodup
      ∧ (applyPluginOps hooksOf ops s).installed
          = netHooks hooksOf (applyPluginOps hooksOf ops s).registry
  | [], _, hnd, hinv => ⟨hnd, hinv⟩
  | op :: rest, s, hnd, hinv =>
      let h := applyPluginOp_preserves hooksOf op s hnd hinv
      applyPluginOps_inv hooksOf rest (applyPluginOp hooksOf op s) h.1 h.2

theorem shutdownRun_eq (s : LogzAIState) (lr tr : Bool) :
    LogzAI.shutdownRun s lr tr
      = { s with log_provider := s.log_provider.map (fun n => n + 1),
                 tracer_provider := s.tracer_provider.map (fun n => n + 1) } := by
  obtain ⟨lp, tp, lg, tc, mc⟩ := s
  cases lp <;> cases tp <;>
    simp [LogzAI.shutdownRun, tryProviderShutdown_eq]

/-! ### Claim theorems -/

/-- Claim C1: for a plugin registered under a fresh name with cleanup token `t`,
the first `unregister_plugin` invokes the stored cleanup exactly once and
removes the entry; a second call on the now-absent name is a no-op, and so is
`unregister_plugin` on any name that was never registered — none of these
calls can raise, since the operation is total. -/
theorem c1_unregister_plugin (hooksOf : Nat → Multiset Nat) (s : PluginRegistryState)
    (name m : String) (t : Nat)
    (hname : findPlugin name s.registry = none)
    (hm : findPlugin m s.registry = none) :
    cleanupCount t (LogzAI.unregister_plugin hooksOf name
        (LogzAI.plugin hooksOf name t s)).events
      = cleanupCount t (LogzAI.plugin hooksOf name t s).events + 1
    ∧ findPlugin name (LogzAI.unregister_plugin hooksOf name
        (LogzAI.plugin hooksOf name t s)).registry = none
    ∧ LogzAI.unregister_plugin hooksOf name
        (LogzAI.unregister_plugin hooksOf name (LogzAI.plugin hooksOf name t s))
      = LogzAI.unregister_plugin hooksOf name (LogzAI.plugin hooksOf name t s)
    ∧ LogzAI.unregister_plugin hooksOf m s = s := by
  have h1 : LogzAI.plugin hooksOf name t s
      = { registry := s.registry ++ [(name, t)]
          installed := s.installed + hooksOf t
          events := s.events ++ [PluginEvent.install t] } := by
    simp only [LogzAI.plugin, hname]
  have hfind1 : findPlugin name (s.registry ++ [(name, t)]) = some t :=
    findPlugin_append_single name t s.registry hname
  have h2 : LogzAI.unregister_plugin hooksOf name (LogzAI.plugin hooksOf name t s)
      = { registry := removePlugin name (s.registry ++ [(name, t)])
          installed := (s.installed + hooksOf t) - hooksOf t
          events := (s.events ++ [PluginEvent.install t]) ++ [PluginEvent.cleanup t] } := by
    rw [h1]
    simp only [LogzAI.unregister_plugin, hfind1]
  refine ⟨?_, ?_, ?_, ?_⟩
  · rw [h2, h1]
    simp [cleanupCount, List.count_append]
  · rw [h2]
    exact findPlugin_removePlugin name _
  · rw [h2]
    simp only [LogzAI.unregister_plugin, findPlugin_removePlugin]
  · simp only [LogzAI.unregister_plugin, hm]

/-- Claim C1 witness: the scenario run on the empty registry with plugin name
`p`, cleanup token `0`, and absent name `q`. -/
theorem c1_unregister_plugin_witness :
    cleanupCount 0 (LogzAI.unregister_plugin (fun t => ({t} : Multiset Nat)) "p"
        (LogzAI.plugin (fun t => ({t} : Multiset Nat)) "p" 0 emptyRegistry)).events
      = cleanupCount 0 (LogzAI.plugin (fun t => ({t} : Multiset Nat)) "p" 0 emptyRegistry).events + 1
    ∧ findPlugin "p" (LogzAI.unregister_plugin (fun t => ({t} : Multiset Nat)) "p"
        (LogzAI.plugin (fun t => ({t} : Multiset Nat)) "p" 0 emptyRegistry)).registry = none
    ∧ LogzAI.unregister_plugin (fun t => ({t} : Multiset Nat)) "p"
        (LogzAI.unregister_plugin (fun t => ({t} : Multiset Nat)) "p"
          (LogzAI.plugin (fun t => ({t} : Multiset Nat)) "p" 0 emptyRegistry))
      = LogzAI.unregister_plugin (fun t => ({t} : Multiset Nat)) "p"
          (LogzAI.plugin (fun t => ({t} : Multiset Nat)) "p" 0 emptyRegistry)
    ∧ LogzAI.unregister_plugin (fun t => ({t} : Multiset Nat)) "q" emptyRegistry = emptyRegistry :=
  c1_unregister_plugin (fun t => ({t} : Multiset Nat)) emptyRegistry "p" "q" 0 rfl rfl

/-- Claim C2: over every sequence of `plugin`/`unregister_plugin` calls from
the empty registry, the installed hooks are exactly the hooks of the plugins
currently held in the registry (so no register-register cycle stacks hooks
twice), registry names stay unique, and re-registering an occupied name logs
the old entry's cleanup before the new installer. -/
theorem c2_no_hook_stacking (hooksOf : Nat → Multiset Nat) (ops : List PluginOp)
    (s' : PluginRegistryState) (n : String) (t old : Nat)
    (hfound : findPlugin n s'.registry = some old) :
    (applyPluginOps hooksOf ops emptyRegistry).installed
        = netHooks hooksOf (applyPluginOps hooksOf ops emptyRegistry).registry
    ∧ ((applyPluginOps hooksOf ops emptyRegistry).registry.map Prod.fst).Nodup
    ∧ (LogzAI.plugin hooksOf n t s').events
        = s'.events ++ [PluginEvent.cleanup old, PluginEvent.install t] := by
  have h := applyPluginOps_inv hooksOf ops emptyRegistry (by simp [emptyRegistry]) rfl
  exact ⟨h.2, h.1, by simp only [LogzAI.plugin, hfound]⟩

/-- Claim C2 witness: a register-register cycle on one name, and a
re-registration over a registry that already holds that name. -/
theorem c2_no_hook_stacking_witness :
    (applyPluginOps (fun t => ({t} : Multiset Nat))
        [PluginOp.register "p" 0, PluginOp.register "p" 1] emptyRegistry).installed
        = netHooks (fun t => ({t} : Multiset Nat))
            (applyPluginOps (fun t => ({t} : Multiset Nat))
              [PluginOp.register "p" 0, PluginOp.register "p" 1] emptyRegistry).registry
    ∧ ((applyPluginOps (fun t => ({t} : Multiset Nat))
        [PluginOp.register "p" 0, PluginOp.register "p" 1] emptyRegistry).registry.map
          Prod.fst).Nodup
    ∧ (LogzAI.plugin (fun t => ({t} : Multiset Nat)) "p" 7
        { registry := [("p", 5)], installed := {5}, events := [] }).events
        = ([] : List PluginEvent) ++ [PluginEvent.cleanup 5, PluginEvent.install 7] :=
  c2_no_hook_stacking (fun t => ({t} : Multiset Nat))
    [PluginOp.register "p" 0, PluginOp.register "p" 1]
    { registry := [("p", 5)], installed := {5}, events := [] } "p" 7 5 rfl

/-- Claim C3 as stated: every pipeline or span operation, including
`set_span_attribute` and `shutdown`, fails when invoked on the uninitialized
facade. -/
def uninitClaimC3 : Prop :=
  ∀ (cur : Option ExcDesc) (level stacklevel : Nat) (exc_info : Bool)
    (message name key : String) (kwargs attrs : Fields) (sp : SpanRec) (value : FieldVal)
    (outcome : BlockOutcome Nat) (lr tr : Bool),
    isOkB (LogzAI.log LogzAI.initialState cur level message stacklevel exc_info kwargs) = false
    ∧ isOkB (LogzAI.debug LogzAI.initialState cur message exc_info kwargs) = false
    ∧ isOkB (LogzAI.info LogzAI.initialState cur message exc_info kwargs) = false
    ∧ isOkB (LogzAI.warning LogzAI.initialState cur message exc_info kwargs) = false
    ∧ isOkB (LogzAI.warn LogzAI.initialState cur message exc_info kwargs) = false
    ∧ isOkB (LogzAI.error LogzAI.initialState cur message exc_info kwargs) = false
    ∧ isOkB (LogzAI.critical LogzAI.initialState cur message exc_info kwargs) = false
    ∧ isOkB (LogzAI.exception LogzAI.initialState cur message kwargs) = false
    ∧ isOkB (LogzAI.start_span LogzAI.initialState name attrs) = false
    ∧ isOkB (LogzAI.span LogzAI.initialState name attrs outcome) = false
    ∧ isOkB (LogzAI.set_span_attribute LogzAI.initialState sp key value) = false
    ∧ isOkB (LogzAI.shutdown LogzAI.initialState lr tr) = false

/-- Claim C3 counterexample: on the uninitialized facade, `set_span_attribute`
and `shutdown` both succeed instead of raising, so the claim as stated is
false. -/
theorem c3_counterexample : ¬ uninitClaimC3 := by
  intro h
  exact absurd
    (h none 0 2 false "" "" "" [] []
      { name := "", attrs := [], endCount := 0, status := SpanStatus.unset }
      (FieldVal.bool true) (BlockOutcome.normal 0) false false)
    (by decide)

/-- Claim C3 (amended): before `init`, `log`, every leveled wrapper,
`start_span` and the scoped `span` helper raise the not-initialized
`RuntimeError`; `set_span_attribute` (which works on the span it is handed)
and `shutdown` (which skips both absent providers) do not check initialization
and succeed. -/
theorem c3_not_initialized (cur : Option ExcDesc) (level stacklevel : Nat) (exc_info : Bool)
    (message name key : String) (kwargs attrs : Fields) (sp : SpanRec) (value : FieldVal)
    (outcome : BlockOutcome Nat) (lr tr : Bool) :
    LogzAI.log LogzAI.initialState cur level message stacklevel exc_info kwargs
        = Except.error notInitializedMsg
    ∧ LogzAI.debug LogzAI.initialState cur message exc_info kwargs
        = Except.error notInitializedMsg
    ∧ LogzAI.info LogzAI.initialState cur message exc_info kwargs
        = Except.error notInitializedMsg
    ∧ LogzAI.warning LogzAI.initialState cur message exc_info kwargs
        = Except.error notInitializedMsg
    ∧ LogzAI.warn LogzAI.initialState cur message exc_info kwargs
        = Except.error notInitializedMsg
    ∧ LogzAI.error LogzAI.initialState cur message exc_info kwargs
        = Except.error notInitializedMsg
    ∧ LogzAI.critical LogzAI.initialState cur message exc_info kwargs
        = Except.error notInitializedMsg
    ∧ LogzAI.exception LogzAI.initialState cur message kwargs
        = Except.error notInitializedMsg
    ∧ LogzAI.start_span LogzAI.initialState name attrs = Except.error notInitializedMsg
    ∧ LogzAI.span LogzAI.initialState name attrs outcome = Except.error notInitializedMsg
    ∧ LogzAI.set_span_attribute LogzAI.initialState sp key value
        = Except.ok { sp with attrs := setField sp.attrs key value }
    ∧ LogzAI.shutdown LogzAI.initialState lr tr = Except.ok LogzAI.initialState :=
  ⟨rfl, rfl, rfl, rfl, rfl, rfl, rfl, rfl, rfl, rfl, rfl, rfl⟩

/-- Claim C4: a block entered through the scoped `span` helper on an
initialized facade that exits by a raised exception leaves the span ended
exactly once with status `error` carrying the stringified exception, and the
exception still propagates to the caller; a block that returns normally also
leaves the span ended exactly once. -/
theorem c4_span_error_propagation (c : InitConfig) (name ty msg : String)
    (attrs : Fields) (a : Nat) :
    LogzAI.span (initStateOf (LogzAI.init LogzAI.initialState c)) name attrs
        (BlockOutcome.raised ty msg : BlockOutcome Nat)
      = Except.ok ({ name := name, attrs := attrs, endCount := 1,
                     status := SpanStatus.error msg }, BlockOutcome.raised ty msg)
    ∧ LogzAI.span (initStateOf (LogzAI.init LogzAI.initialState c)) name attrs
        (BlockOutcome.normal a)
      = Except.ok ({ name := name, attrs := attrs, endCount := 1,
                     status := SpanStatus.unset }, BlockOutcome.normal a) :=
  ⟨rfl, rfl⟩

/-- Claim C5: the full facade shutdown never raises; its outcome is unchanged
when any plugin cleanup or either provider's close fails (all such failures are
swallowed, and each half is attempted independently of the other's failure);
every still-registered cleanup runs in order and the registry is emptied; each
present provider's shutdown is attempted exactly once per call; and a repeated
shutdown also completes without raising and without re-running any cleanup. -/
theorem c5_shutdown_idempotent (hooksOf : Nat → Multiset Nat)
    (cleanupRaises cleanupRaises' : Nat → Bool) (lr tr lr' tr' : Bool)
    (ps : PluginRegistryState) (s : LogzAIState) :
    LogzAI.fullShutdown hooksOf cleanupRaises lr tr ps s
        = Except.ok (LogzAI.fullShutdownRun hooksOf cleanupRaises lr tr ps s)
    ∧ LogzAI.fullShutdownRun hooksOf cleanupRaises lr tr ps s
        = LogzAI.fullShutdownRun hooksOf cleanupRaises' lr' tr' ps s
    ∧ (LogzAI.fullShutdownRun hooksOf cleanupRaises lr tr ps s).1.registry = []
    ∧ (LogzAI.fullShutdownRun hooksOf cleanupRaises lr tr ps s).1.events
        = ps.events ++ ps.registry.map (fun p => PluginEvent.cleanup p.2)
    ∧ (LogzAI.fullShutdownRun hooksOf cleanupRaises lr tr ps s).2.log_provider
        = s.log_provider.map (fun n => n + 1)
    ∧ (LogzAI.fullShutdownRun hooksOf cleanupRaises lr tr ps s).2.tracer_provider
        = s.tracer_provider.map (fun n => n + 1)
    ∧ LogzAI.fullShutdown hooksOf cleanupRaises lr tr
          (LogzAI.fullShutdownRun hooksOf cleanupRaises lr tr ps s).1
          (LogzAI.fullShutdownRun hooksOf cleanupRaises lr tr ps s).2
        = Except.ok (LogzAI.fullShutdownRun hooksOf cleanupRaises lr tr
            (LogzAI.fullShutdownRun hooksOf cleanupRaises lr tr ps s).1
            (LogzAI.fullShutdownRun hooksOf cleanupRaises lr tr ps s).2)
    ∧ (LogzAI.fullShutdownRun hooksOf cleanupRaises lr tr
          (LogzAI.fullShutdownRun hooksOf cleanupRaises lr tr ps s).1
          (LogzAI.fullShutdownRun hooksOf cleanupRaises lr tr ps s).2).1.events
        = (LogzAI.fullShutdownRun hooksOf cleanupRaises lr tr ps s).1.events := by
  simp only [LogzAI.fullShutdown, LogzAI.fullShutdownRun, drainPlugins_spec, shutdownRun_eq]
  simp

/-- Claim C6 as stated: whenever `exc_info` is true or an exception is
propagating, the enriched fields contain `exception.type`. -/
def excFieldsClaimC6 : Prop :=
  ∀ (exc_info : Bool) (cur : Option ExcDesc) (kwargs : Fields),
    (exc_info = true ∨ cur.isSome = true) →
      (lookupKey (addExcFields exc_info cur kwargs) "exception.type").isSome = true

/-- Claim C6 counterexample: with `exc_info=True` but no exception currently
propagating, `log` adds no exception fields, so the claim as stated is false. -/
theorem c6_counterexample : ¬ excFieldsClaimC6 := by
  intro h
  exact absurd (h true none [] (Or.inl rfl)) (by decide)

/-- Claim C6 (amended): the exception fields are injected exactly when an
exception is currently propagating: with no propagating exception the fields
are returned unchanged even when `exc_info` is true, and with a propagating
exception the record gains `is_exception=true`, `exception.type`,
`exception.message` and `exception.stacktrace` with the live exception's data,
whatever the value of `exc_info`. -/
theorem c6_exception_fields (exc_info : Bool) (kwargs : Fields) (e : ExcDesc) :
    addExcFields exc_info none kwargs = kwargs
    ∧ lookupKey (addExcFields exc_info (some e) kwargs) "is_exception"
        = some (FieldVal.bool true)
    ∧ lookupKey (addExcFields exc_info (some e) kwargs) "exception.type"
        = some (FieldVal.str e.typeName)
    ∧ lookupKey (addExcFields exc_info (some e) kwargs) "exception.message"
        = some (FieldVal.str e.message)
    ∧ lookupKey (addExcFields exc_info (some e) kwargs) "exception.stacktrace"
        = some (FieldVal.str e.stacktrace) := by
  have hsome : addExcFields exc_info (some e) kwargs
      = setField
          (setField
            (setField
              (setField kwargs "is_exception" (FieldVal.bool true))
              "exception.type" (FieldVal.str e.typeName))
            "exception.message" (FieldVal.str e.message))
          "exception.stacktrace" (FieldVal.str e.stacktrace) := by
    cases exc_info <;> rfl
  refine ⟨by cases exc_info <;> rfl, ?_, ?_, ?_, ?_⟩
  · rw [hsome, lookupKey_setField_ne _ _ _ _ (by decide),
        lookupKey_setField_ne _ _ _ _ (by decide),
        lookupKey_setField_ne _ _ _ _ (by decide), lookupKey_setField_self]
  · rw [hsome, lookupKey_setField_ne _ _ _ _ (by decide),
        lookupKey_setField_ne _ _ _ _ (by decide), lookupKey_setField_self]
  · rw [hsome, lookupKey_setField_ne _ _ _ _ (by decide), lookupKey_setField_self]
  · rw [hsome, lookupKey_setField_self]

/-- Claim C7: for every base endpoint and protocol, the log export target is
the base with all trailing slashes removed followed by `/logs`, the trace
target likewise followed by `/traces`, the stripped base never ends in a
slash, and the concrete base `http://host:1234/` with protocol `http` yields
`http://host:1234/logs` and `http://host:1234/traces` with no double slash. -/
theorem c7_export_urls (endpoint protocol : String) (headers : List (String × String)) :
    (LogzAIBase.makeLogExporter endpoint headers protocol).url
        = rstripSlashes endpoint ++ "/logs"
    ∧ (LogzAIBase.makeTraceExporter endpoint headers protocol).url
        = rstripSlashes endpoint ++ "/traces"
    ∧ (((rstripSlashes endpoint).data.getLast?).all (fun c => c != '/')) = true
    ∧ (LogzAIBase.makeLogExporter "http://host:1234/" [] "http").url
        = "http://host:1234/logs"
    ∧ (LogzAIBase.makeTraceExporter "http://host:1234/" [] "http").url
        = "http://host:1234/traces" := by
  refine ⟨?_, ?_, rstripSlashes_no_trailing endpoint, by decide, by decide⟩
  · unfold LogzAIBase.makeLogExporter
    split <;> rfl
  · unfold LogzAIBase.makeTraceExporter
    split <;> rfl

/-- Claim C8: each convenience wrapper forwards to the shared `log` dispatcher
with its fixed level and a caller-attribution depth of `2 + 1`, one frame more
than the dispatcher's own default depth `2`; `exc_info` defaults to enabled
for `error`, `critical` and `exception` and to disabled for the others. -/
theorem c8_wrappers (s : LogzAIState) (cur : Option ExcDesc) (level : Nat)
    (message : String) (exc_info : Bool) (kwargs : Fields) :
    LogzAI.logDefaults s cur level message kwargs
        = LogzAI.log s cur level message 2 false kwargs
    ∧ LogzAI.debug s cur message exc_info kwargs
        = LogzAI.log s cur logging.DEBUG message (2 + 1) exc_info kwargs
    ∧ LogzAI.debugDefaults s cur message kwargs = LogzAI.debug s cur message false kwargs
    ∧ LogzAI.info s cur message exc_info kwargs
        = LogzAI.log s cur logging.INFO message (2 + 1) exc_info kwargs
    ∧ LogzAI.infoDefaults s cur message kwargs = LogzAI.info s cur message false kwargs
    ∧ LogzAI.warning s cur message exc_info kwargs
        = LogzAI.log s cur logging.WARNING message (2 + 1) exc_info kwargs
    ∧ LogzAI.warningDefaults s cur message kwargs = LogzAI.warning s cur message false kwargs
    ∧ LogzAI.warn s cur message exc_info kwargs
        = LogzAI.log s cur logging.WARNING message (2 + 1) exc_info kwargs
    ∧ LogzAI.warnDefaults s cur message kwargs = LogzAI.warn s cur message false kwargs
    ∧ LogzAI.error s cur message exc_info kwargs
        = LogzAI.log s cur logging.ERROR message (2 + 1) exc_info kwargs
    ∧ LogzAI.errorDefaults s cur message kwargs = LogzAI.error s cur message true kwargs
    ∧ LogzAI.critical s cur message exc_info kwargs
        = LogzAI.log s cur logging.CRITICAL message (2 + 1) exc_info kwargs
    ∧ LogzAI.criticalDefaults s cur message kwargs = LogzAI.critical s cur message true kwargs
    ∧ LogzAI.exception s cur message kwargs
        = LogzAI.log s cur logging.ERROR message (2 + 1) true kwargs :=
  ⟨rfl, rfl, rfl, rfl, rfl, rfl, rfl, rfl, rfl, rfl, rfl, rfl, rfl, rfl⟩

/-- Claim C9 as stated: `init` rejects an empty ingest token or an empty
endpoint. -/
def initValidatesClaimC9 : Prop :=
  ∀ (s : LogzAIState) (c : InitConfig),
    (c.ingest_token = "" ∨ c.ingest_endpoint = "") → isOkB (LogzAI.init s c) = false

/-- Claim C9 counterexample: `init` called with an empty ingest token (all
other arguments at their defaults) succeeds, so the claim as stated is
false. -/
theorem c9_counterexample : ¬ initValidatesClaimC9 := by
  intro h
  exact absurd (h LogzAI.initialState (defaultInitConfig "") (Or.inl rfl)) (by decide)

/-- Claim C9 (amended): `init` performs no validation of its configuration:
it succeeds for every configuration, including an empty token or endpoint,
and the (possibly empty) token is placed verbatim in the `x-ingest-token`
header; the configuration is only read during pipeline construction and is
not retained, so nothing can mutate it afterwards. -/
theorem c9_init_no_validation (s : LogzAIState) (c : InitConfig) :
    isOkB (LogzAI.init s c) = true
    ∧ (initHeadersOf (LogzAI.init s c)).map (fun hs => lookupKey hs "x-ingest-token")
        = some (some c.ingest_token) := by
  refine ⟨rfl, ?_⟩
  rcases hc : c.origin with _ | o
  · simp [LogzAI.init, initHeadersOf, lookupKey, hc]
  · by_cases ho : o = "" <;> simp [LogzAI.init, initHeadersOf, lookupKey, hc, ho]

/-- Claim C10: the gRPC exporters are selected exactly when the lowercase of
the protocol string equals `grpc`, and every other protocol value, including
`tcp`, silently selects the HTTP exporters (the factory is total and cannot
raise). -/
theorem c10_protocol_selection (endpoint protocol : String)
    (headers : List (String × String)) :
    ((LogzAIBase.makeLogExporter endpoint headers protocol).kind = ExporterKind.grpc
        ↔ pyLower protocol = "grpc")
    ∧ ((LogzAIBase.makeTraceExporter endpoint headers protocol).kind = ExporterKind.grpc
        ↔ pyLower protocol = "grpc")
    ∧ (LogzAIBase.makeLogExporter endpoint headers "tcp").kind = ExporterKind.http
    ∧ (LogzAIBase.makeTraceExporter endpoint headers "tcp").kind = ExporterKind.http
    ∧ (LogzAIBase.makeLogExporter endpoint headers "GRPC").kind = ExporterKind.grpc
    ∧ (LogzAIBase.makeTraceExporter endpoint headers "GrPc").kind = ExporterKind.grpc := by
  refine ⟨?_, ?_, ?_, ?_, ?_, ?_⟩
  · unfold LogzAIBase.makeLogExporter
    by_cases h : pyLower protocol = "grpc" <;> simp [h]
  · unfold LogzAIBase.makeTraceExporter
    by_cases h : pyLower protocol = "grpc" <;> simp [h]
  · unfold LogzAIBase.makeLogExporter
    rw [if_neg (by decide)]
  · unfold LogzAIBase.makeTraceExporter
    rw [if_neg (by decide)]
  · unfold LogzAIBase.makeLogExporter
    rw [if_pos (by decide)]
  · unfold LogzAIBase.makeTraceExporter
    rw [if_pos (by decide)]

/-- Claim C10 witness: the selection applied at concrete protocols `grpc` and
`tcp`. -/
theorem c10_protocol_selection_witness :
    ((LogzAIBase.makeLogExporter "http://host" [] "grpc").kind = ExporterKind.grpc
        ↔ pyLower "grpc" = "grpc")
    ∧ ((LogzAIBase.makeTraceExporter "http://host" [] "grpc").kind = ExporterKind.grpc
        ↔ pyLower "grpc" = "grpc")
    ∧ (LogzAIBase.makeLogExporter "http://host" [] "tcp").kind = ExporterKind.http
    ∧ (LogzAIBase.makeTraceExporter "http://host" [] "tcp").kind = ExporterKind.http
    ∧ (LogzAIBase.makeLogExporter "http://host" [] "GRPC").kind = ExporterKind.grpc
    ∧ (LogzAIBase.makeTraceExporter "http://host" [] "GrPc").kind = ExporterKind.grpc :=
  c10_protocol_selection "http://host" "grpc" []

end LogzaiOtlp
